import Mathlib

/-!
Shallow embedding of the resolution-and-dispatch core of semantic-link-labs.

Source files embedded:
  * `src/src/sempy_labs/_mounted_data_factories.py`
    (`list_mounted_data_factories`, `get_mounted_data_factory_definition`,
     `delete_mounted_data_factory`)
  * `src/sempy_labs/UpdateDirectLakeModelLakehouseConnection.py`
    (`update_direct_lake_model_lakehouse_connection`)

External collaborators (the remote item-management API, the ambient context
provider, the metadata connection provider, and helper modules of this
repository that are not part of the reviewed sources, such as
`_helper_functions.py`, `TOM.py`, `GetSharedExpression.py`,
`HelperFunctions.py`) are modelled as explicit environment records; where the
missing code decides behaviour it is modelled from the specification and noted
as such on the definition.

Each embedded function returns, besides its Python return value or raised
exception, an explicit trace: resolution events, remote-request events,
printed messages, and (for the connection remapper) the property writes it
performed, so frame and ordering properties can be stated.
-/

/-- Python exception kinds raised by the embedded code paths. `stopIteration`
is what `next()` raises on an exhausted generator (the NotFound-style
condition of a missing definition part); `typeError` is what Python raises at
a call site that omits a required positional argument; `remoteFailure` stands
for a failing remote call or a failing metadata commit. -/
inductive PyErr where
  | stopIteration
  | typeError
  | notFound
  | attributeError
  | remoteFailure
deriving DecidableEq, Repr

/-- Trace events recorded by the embedded functions, in program order:
name/id resolutions performed through the ambient context provider, and
requests issued to the remote item-management service. -/
inductive Event where
  | resolveWorkspacePair (name id : String)
  | resolveItemIdOnly (id : String)
  | resolveItemPair (name id : String)
  | request (r : String)
deriving DecidableEq, Repr

/-- True exactly on workspace (name, id) resolution events. -/
def Event.isWorkspacePair : Event → Bool
  | .resolveWorkspacePair _ _ => true
  | _ => false

/-- True exactly on remote-request events. -/
def Event.isRequest : Event → Bool
  | .request _ => true
  | _ => false

/-- Messages printed by `update_direct_lake_model_lakehouse_connection`
(the four `print` calls of the source, by content). -/
inductive Msg where
  | lakehouseMissing
  | notDirectLake
  | updated
  | updateError
deriving DecidableEq, Repr

/-- A Python dict with string values, as produced by parsing one JSON item
record; `pyGet` mirrors `dict.get(key)`. -/
abbrev PyDict : Type := List (String × String)

/-- Python `d.get(k)`: the value at the first occurrence of key `k`, or
`None` when the key is missing (never an exception). -/
def pyGet (d : PyDict) (k : String) : Option String :=
  (List.find? (fun kv => kv.1 == k) d).map (fun kv => kv.2)

/-- A minimal JSON document type, the codomain of `json.loads`. -/
inductive Json where
  | null
  | str (s : String)
  | num (n : Int)
  | bool (b : Bool)
  | arr (xs : List Json)
  | obj (fields : List (String × Json))

/- ------------------------------------------------------------------ -/
/- `list_mounted_data_factories` (`_mounted_data_factories.py` 19-66) -/
/- ------------------------------------------------------------------ -/

/-- One page of the paginated listing response; `value` is `r.get("value", [])`:
the `"value"` key may be absent, in which case the loop body sees `[]`. -/
structure MdfPage where
  value : Option (List PyDict)

/-- One dataframe row produced by the listing loop: the three fixed-key
lookups `v.get("displayName")`, `v.get("id")`, `v.get("description")`
(columns "Mounted Data Factory Name", "Mounted Data Factory Id",
"Description"). -/
structure MdfRow where
  name : Option String
  id : Option String
  description : Option String
deriving DecidableEq, Repr

/-- The row built from one item record `v` (source lines 56-60). -/
def mdfRow (v : PyDict) : MdfRow :=
  { name := pyGet v "displayName"
  , id := pyGet v "id"
  , description := pyGet v "description" }

/-- Environment of `list_mounted_data_factories`.
`resolveWorkspace` models `resolve_workspace_name_and_id`
(`_helper_functions.py`, repository code not under `src/`).
Modelled from the spec: the resolver returns a canonical (name, id) pair for
the optional workspace argument, deriving an omitted value from ambient
context, and fails when no matching workspace exists.
`pages` is the paginated response sequence of
`GET /v1/workspaces/{workspace_id}/mountedDataFactories` for a workspace id
(pagination mechanics are the external API helper's, out of the core's
scope). -/
structure ListEnv where
  resolveWorkspace : Option String → Except PyErr (String × String)
  pages : String → List MdfPage

/-- Result of a `list_mounted_data_factories` call: its trace and either the
returned rows (in dataframe order) or the propagated exception. -/
structure ListResult where
  events : List Event
  outcome : Except PyErr (List MdfRow)

/-- Embedding of `list_mounted_data_factories` (source lines 19-66):
resolve the workspace to a (name, id) pair, issue the paginated listing
request, and append one row per item record, pages in response order and
records in page order (`pd.concat(..., ignore_index=True)` appends).
The dtype pass `_update_dataframe_datatypes` is a dataframe-formatting
helper the spec places out of scope; it does not change row count, order or
content. -/
def list_mounted_data_factories (env : ListEnv) (workspace : Option String) :
    ListResult :=
  match env.resolveWorkspace workspace with
  | .error e => { events := [], outcome := .error e }
  | .ok (workspace_name, workspace_id) =>
    let responses := env.pages workspace_id
    let rows := responses.foldl
      (fun df r =>
        (r.value.getD []).foldl (fun df v => df ++ [mdfRow v]) df) []
    { events := [Event.resolveWorkspacePair workspace_name workspace_id,
                 Event.request "GET mountedDataFactories"]
    , outcome := .ok rows }

/-- The record sequence the listing flattens: all pages' item records, pages
in response order, records in page order. -/
def pageRecords (responses : List MdfPage) : List (List PyDict) :=
  responses.map (fun r => r.value.getD [])

/- ------------------------------------------------------------------------ -/
/- `get_mounted_data_factory_definition` (`_mounted_data_factories.py` 69-113) -/
/- ------------------------------------------------------------------------ -/

/-- One part of a definition bundle, per the remote API contract
`POST getDefinition → {definition: {parts: [{path, payload(base64)}]}}`:
a path name and a base64 payload. -/
structure DefinitionPart where
  path : String
  payload : String
deriving DecidableEq, Repr

/-- The constant part path selected by the fetcher (source line 96). -/
def contentPath : String := "mountedDataFactory-content.json"

/-- Environment of `get_mounted_data_factory_definition`.
`resolveWorkspace` models `resolve_workspace_name_and_id` and
`resolveItemId` models `resolve_item_id` (`_helper_functions.py`, repository
code not under `src/`). Modelled from the spec: the workspace resolver
returns a canonical (name, id) pair and the item resolver returns the item's
identifier within the workspace, each failing when no matching entity
exists. `getDefinitionParts` is the `definition.parts` array of the awaited
long-running `getDefinition` response for (workspace id, item id); `decode`
models `_decode_b64` (base64 decoding of a payload) and `parseJson` models
`json.loads`, both total on the well-formed payloads the API contract
guarantees. -/
structure GetDefEnv where
  resolveWorkspace : Option String → Except PyErr (String × String)
  resolveItemId : String → Except PyErr String
  getDefinitionParts : String → String → List DefinitionPart
  decode : String → String
  parseJson : String → Json

/-- Result of a `get_mounted_data_factory_definition` call: its trace and
either the parsed content document or the propagated exception. -/
structure GetDefResult where
  events : List Event
  outcome : Except PyErr Json

/-- Embedding of `get_mounted_data_factory_definition` (source lines 69-113):
resolve the workspace pair and the item id, issue the `getDefinition`
request, then return `json.loads(_decode_b64(next(p.get("payload") for p in
parts if p.get("path") == path)))`. `next` over the filtered generator
yields the payload of the FIRST part whose path equals `contentPath`, and
raises `StopIteration` when no part matches (the only failure of this final
step: decoding and parsing are never reached then). -/
def get_mounted_data_factory_definition (env : GetDefEnv)
    (mounted_data_factory : String) (workspace : Option String) :
    GetDefResult :=
  match env.resolveWorkspace workspace with
  | .error e => { events := [], outcome := .error e }
  | .ok (workspace_name, workspace_id) =>
    match env.resolveItemId mounted_data_factory with
    | .error e =>
      { events := [Event.resolveWorkspacePair workspace_name workspace_id]
      , outcome := .error e }
    | .ok item_id =>
      let parts := env.getDefinitionParts workspace_id item_id
      let events := [Event.resolveWorkspacePair workspace_name workspace_id,
                     Event.resolveItemIdOnly item_id,
                     Event.request "POST getDefinition"]
      match parts.find? (fun p => p.path == contentPath) with
      | some p => { events := events
                  , outcome := .ok (env.parseJson (env.decode p.payload)) }
      | none => { events := events, outcome := .error .stopIteration }

/- ------------------------------------------------------------------- -/
/- `delete_mounted_data_factory` (`_mounted_data_factories.py` 116-142) -/
/- ------------------------------------------------------------------- -/

/-- Environment of `delete_mounted_data_factory`.
`resolveItem` models `resolve_item_name_and_id` (`_helper_functions.py`,
repository code not under `src/`). Modelled from the spec: given a
name-or-id and the raw workspace argument as scope, it returns the item's
canonical (name, id) pair, failing when no matching item exists.
`deleteItem` is the remote `fabric.delete_item` call on an item id, which
may fail. -/
structure DeleteEnv where
  resolveItem : String → Option String → Except PyErr (String × String)
  deleteItem : String → Except PyErr Unit

/-- Result of a `delete_mounted_data_factory` call: its trace, whether the
success message of `_print_success` was printed, and any propagated
exception. -/
structure DeleteResult where
  events : List Event
  printedSuccess : Bool
  raised : Option PyErr
deriving DecidableEq, Repr

/-- Embedding of `delete_mounted_data_factory` (source lines 116-142):
resolve the item to a (name, id) pair, issue exactly one
`fabric.delete_item` request, and only then print the success message
(`_print_success`, modelled from the spec as the success report). The raw
`workspace` argument is passed through to the resolver and the delete call;
the function itself resolves no workspace (name, id) pair. A failing delete
call raises before the success message is reached. -/
def delete_mounted_data_factory (env : DeleteEnv)
    (mounted_data_factory : String) (workspace : Option String) :
    DeleteResult :=
  match env.resolveItem mounted_data_factory workspace with
  | .error e => { events := [], printedSuccess := false, raised := some e }
  | .ok (item_name, item_id) =>
    match env.deleteItem item_id with
    | .error e =>
      { events := [Event.resolveItemPair item_name item_id,
                   Event.request "DELETE item"]
      , printedSuccess := false
      , raised := some e }
    | .ok _ =>
      { events := [Event.resolveItemPair item_name item_id,
                   Event.request "DELETE item"]
      , printedSuccess := true
      , raised := none }

/-- The argument shapes of a Python call site of
`delete_mounted_data_factory`: with the `workspace` argument supplied, or
with it omitted. -/
inductive DeleteCallArgs where
  | withoutWorkspace (mounted_data_factory : String)
  | withWorkspace (mounted_data_factory : String) (workspace : Option String)

/-- Call-site semantics of `delete_mounted_data_factory`'s Python signature
(source lines 116-118): `workspace: Optional[str | UUID]` is declared with
NO default value, so a call omitting it raises `TypeError` (missing required
positional argument) before the body runs — no resolution and no request
happen — even though the docstring (line 128) documents `default=None`. -/
def delete_mounted_data_factory_call (env : DeleteEnv) :
    DeleteCallArgs → DeleteResult
  | .withoutWorkspace _ =>
    { events := [], printedSuccess := false, raised := some .typeError }
  | .withWorkspace m w => delete_mounted_data_factory env m w

/- --------------------------------------------------------------------- -/
/- `update_direct_lake_model_lakehouse_connection`                        -/
/- (`UpdateDirectLakeModelLakehouseConnection.py` 8-67)                   -/
/- --------------------------------------------------------------------- -/

/-- Environment of `update_direct_lake_model_lakehouse_connection`.
`getWorkspaceId`, `resolveWorkspaceName`, `resolveWorkspaceId` and
`getLakehouseId` are the ambient context provider
(`fabric.get_workspace_id`, `fabric.resolve_workspace_name`,
`fabric.resolve_workspace_id`, `fabric.get_lakehouse_id`);
`resolveLakehouseName` models `resolve_lakehouse_name`
(`HelperFunctions.py`, repository code not under `src/`). Modelled from the
spec: it maps a lakehouse id and its workspace to the lakehouse display
name. `lakehouseDisplayNames` is the "Display Name" column of
`fabric.list_items(workspace, type="Lakehouse")`; `partitionModes` is the
"Mode" column of `fabric.list_partitions(dataset, workspace)`;
`sharedExpression` models `get_shared_expression` (`GetSharedExpression.py`,
repository code not under `src/`). Modelled from the spec: it produces the
target lakehouse's generated connection-string expression.
`modelExpressions` is the named expression collection
(`tom.model.Expressions`, name to M expression) of the semantic model in its
workspace as persisted before the call, and `commitOk` is whether the
metadata commit (`SaveChanges` on release of the connection) succeeds. -/
structure RemapEnv where
  getWorkspaceId : String
  resolveWorkspaceName : String → String
  resolveWorkspaceId : String → String
  getLakehouseId : String
  resolveLakehouseName : String → String → String
  lakehouseDisplayNames : String → List String
  partitionModes : String → String → List String
  sharedExpression : String → String → String
  modelExpressions : String → String → List (String × String)
  commitOk : Bool

/-- Result of an `update_direct_lake_model_lakehouse_connection` call: its
trace, its printed messages in order, whether a read/write metadata
connection was opened and whether it was released, how many times the
expression-property assignment statement was executed, the successful
in-memory property writes as (expression name, new value) pairs, whether
the commit succeeded, the persisted expression collection after the call,
and any exception propagating out of the call. -/
structure RemapResult where
  events : List Event
  prints : List Msg
  opened : Bool
  released : Bool
  writeAttempts : Nat
  writes : List (String × String)
  committed : Bool
  finalExpressions : List (String × String)
  raised : Option PyErr
deriving DecidableEq, Repr

/-- Workspace resolution of the remapper (source lines 34-38): an omitted
workspace is derived from ambient context (`fabric.get_workspace_id`, then
`fabric.resolve_workspace_name`); a given workspace name has its id resolved
(`fabric.resolve_workspace_id`). Either way exactly one canonical
(name, id) pair results. -/
def remapWorkspacePair (env : RemapEnv) (workspace : Option String) :
    String × String :=
  match workspace with
  | none =>
    let workspace_id := env.getWorkspaceId
    (env.resolveWorkspaceName workspace_id, workspace_id)
  | some w => (w, env.resolveWorkspaceId w)

/-- Lakehouse-workspace defaulting of the remapper (source lines 40-41): an
omitted `lakehouse_workspace` defaults to the resolved workspace name. -/
def remapLakehouseWorkspace (ws : String)
    (lakehouse_workspace : Option String) : String :=
  lakehouse_workspace.getD ws

/-- Lakehouse resolution of the remapper (source lines 43-45): an omitted
lakehouse is derived from ambient context (`fabric.get_lakehouse_id`, then
`resolve_lakehouse_name`); a given lakehouse display name is used as is
(no id is resolved for it). -/
def remapLakehouse (env : RemapEnv) (lws : String)
    (lakehouse : Option String) : String :=
  match lakehouse with
  | none => env.resolveLakehouseName env.getLakehouseId lws
  | some l => l

/-- `tom.model.Expressions[name].Expression = val` on the named expression
collection: the expression object with the given name gets its Expression
property set (names in a TOM named collection are unique). -/
def setExpr (exprs : List (String × String)) (name val : String) :
    List (String × String) :=
  exprs.map (fun e => if e.1 == name then (e.1, val) else e)

/-- Whether the named expression exists in the collection: indexing a
missing name and assigning its property is what raises inside the `try`
of source lines 63-64. -/
def hasExpr (exprs : List (String × String)) (name : String) : Bool :=
  exprs.any (fun e => e.1 == name)

/-- Embedding of `update_direct_lake_model_lakehouse_connection` (source
lines 8-67). Control flow of the source: resolve the workspace pair
(34-38), default the lakehouse workspace (40-41), resolve the lakehouse
(43-45), validate the lakehouse by listing lakehouses (47-52, print-and-
continue when absent), list the model's partitions (54-55); if no partition
is in DirectLake mode, print the precondition mismatch and stop (57-58)
without touching the model; otherwise open a read/write metadata connection
`with connect_semantic_model(..., readonly=False, ...)` (60), compute the
shared expression (62), and inside `try` assign
`tom.model.Expressions["DatabaseQuery"].Expression` (63-64), printing
success, with a bare `except` printing the generic error message (66-67).
The context manager `connect_semantic_model` (`TOM.py`, repository code not
under `src/`) is modelled from the spec: the connection is acquired,
mutated, and released within this single scope, and on EVERY exit path the
in-memory changes are committed (`SaveChanges`) and the connection released;
a failing commit leaves the persisted model unchanged and raises. -/
def update_direct_lake_model_lakehouse_connection (env : RemapEnv)
    (dataset : String)
    (workspace lakehouse lakehouse_workspace : Option String) : RemapResult :=
  let wsPair := remapWorkspacePair env workspace
  let ws := wsPair.1
  let lws := remapLakehouseWorkspace ws lakehouse_workspace
  let lh := remapLakehouse env lws lakehouse
  let lakehouseEvents :=
    match lakehouse with
    | none => [Event.resolveItemPair (env.resolveLakehouseName env.getLakehouseId lws)
                 env.getLakehouseId]
    | some _ => []
  let lakehouseExists := (env.lakehouseDisplayNames lws).contains lh
  let prints1 := if lakehouseExists then [] else [Msg.lakehouseMissing]
  let modes := env.partitionModes dataset ws
  let tailEvents := lakehouseEvents
    ++ [Event.request "list_items Lakehouse", Event.request "list_partitions"]
  let exprs := env.modelExpressions dataset ws
  if (modes.filter (fun m => m == "DirectLake")).isEmpty then
    { events := Event.resolveWorkspacePair ws wsPair.2 :: tailEvents
    , prints := prints1 ++ [Msg.notDirectLake]
    , opened := false
    , released := false
    , writeAttempts := 0
    , writes := []
    , committed := false
    , finalExpressions := exprs
    , raised := none }
  else
    let shEx := env.sharedExpression lh lws
    let ok := hasExpr exprs "DatabaseQuery"
    let inMem := if ok then setExpr exprs "DatabaseQuery" shEx else exprs
    { events := Event.resolveWorkspacePair ws wsPair.2
        :: (tailEvents ++ [Event.request "connect_semantic_model rw"])
    , prints := prints1 ++ [if ok then Msg.updated else Msg.updateError]
    , opened := true
    , released := true
    , writeAttempts := 1
    , writes := if ok then [("DatabaseQuery", shEx)] else []
    , committed := env.commitOk
    , finalExpressions := if env.commitOk then inMem else exprs
    , raised := if env.commitOk then none else some PyErr.remoteFailure }

/- ------------------------------------------------------------------ -/
/- Concrete environments used by witnesses and counterexamples        -/
/- ------------------------------------------------------------------ -/

/-- A listing environment: workspace "W"/"wid", two pages with one item
record each ("DF1"/"id1" then "DF2"/"id2", no description key). -/
def wListEnv : ListEnv :=
  { resolveWorkspace := fun _ => .ok ("W", "wid")
  , pages := fun _ =>
      [ { value := some [[("displayName", "DF1"), ("id", "id1")]] }
      , { value := some [[("displayName", "DF2"), ("id", "id2")]] } ] }

/-- A listing environment whose single item record carries only the "id"
key: "displayName" and "description" are missing. -/
def wListEnvMissing : ListEnv :=
  { resolveWorkspace := fun _ => .ok ("W", "wid")
  , pages := fun _ => [ { value := some [[("id", "x")]] } ] }

/-- A definition-fetch environment whose bundle holds a non-matching part
followed by two parts at the content path, so the first of them is the one
`next` selects. -/
def wGetDefEnv : GetDefEnv :=
  { resolveWorkspace := fun _ => .ok ("W", "wid")
  , resolveItemId := fun _ => .ok "mid"
  , getDefinitionParts := fun _ _ =>
      [ { path := "other.json", payload := "zzz" }
      , { path := "mountedDataFactory-content.json", payload := "payload1" }
      , { path := "mountedDataFactory-content.json", payload := "payload2" } ]
  , decode := fun s => s ++ "!"
  , parseJson := Json.str }

/-- A definition-fetch environment whose bundle has no part at the content
path. -/
def wGetDefEnvNone : GetDefEnv :=
  { resolveWorkspace := fun _ => .ok ("W", "wid")
  , resolveItemId := fun _ => .ok "mid"
  , getDefinitionParts := fun _ _ => [ { path := "other.json", payload := "zzz" } ]
  , decode := fun s => s ++ "!"
  , parseJson := Json.str }

/-- A delete environment whose resolution and deletion both succeed. -/
def wDeleteEnv : DeleteEnv :=
  { resolveItem := fun _ _ => .ok ("DF1", "id1")
  , deleteItem := fun _ => .ok () }

/-- A delete environment whose remote deletion call fails. -/
def wDeleteEnvFail : DeleteEnv :=
  { resolveItem := fun _ _ => .ok ("DF1", "id1")
  , deleteItem := fun _ => .error .remoteFailure }

/-- A remap environment: one DirectLake partition, a model with a
"DatabaseQuery" expression holding "OLD", shared expression "NEWEXPR",
successful commit. -/
def wRemapEnv : RemapEnv :=
  { getWorkspaceId := "wsid"
  , resolveWorkspaceName := fun _ => "WS"
  , resolveWorkspaceId := fun w => w ++ "-id"
  , getLakehouseId := "lhid"
  , resolveLakehouseName := fun _ _ => "LH"
  , lakehouseDisplayNames := fun _ => ["LH"]
  , partitionModes := fun _ _ => ["DirectLake"]
  , sharedExpression := fun _ _ => "NEWEXPR"
  , modelExpressions := fun _ _ => [("DatabaseQuery", "OLD")]
  , commitOk := true }

/-- `wRemapEnv` with no DirectLake partition (an Import-mode model). -/
def wRemapEnvNoDL : RemapEnv :=
  { wRemapEnv with partitionModes := fun _ _ => ["Import"] }

/-- `wRemapEnv` with a model lacking the "DatabaseQuery" expression, so the
property assignment raises inside the `try`. -/
def wRemapEnvNoExpr : RemapEnv :=
  { wRemapEnv with modelExpressions := fun _ _ => [("Other", "X")] }

/-- `wRemapEnv` with a failing metadata commit. -/
def wRemapEnvBadCommit : RemapEnv :=
  { wRemapEnv with commitOk := false }

/-- The new shared expression the remapper writes (source lines 40-45 and
62): `get_shared_expression(lakehouse, lakehouse_workspace)` on the resolved
lakehouse and lakehouse workspace. -/
def remapShared (env : RemapEnv)
    (workspace lakehouse lakehouse_workspace : Option String) : String :=
  env.sharedExpression
    (remapLakehouse env
      (remapLakehouseWorkspace (remapWorkspacePair env workspace).1 lakehouse_workspace)
      lakehouse)
    (remapLakehouseWorkspace (remapWorkspacePair env workspace).1 lakehouse_workspace)

/-- The target model's persisted expression collection before the call
(source lines 54 and 64 address the model by dataset name and resolved
workspace). -/
def remapModelExprs (env : RemapEnv) (dataset : String)
    (workspace : Option String) : List (String × String) :=
  env.modelExpressions dataset (remapWorkspacePair env workspace).1

/- ------------------------------------------------------------------ -/
/- Helper lemmas                                                      -/
/- ------------------------------------------------------------------ -/

/-- Appending one row per record with `foldl` is mapping over the records. -/
theorem foldl_append_rows (vs : List PyDict) (acc : List MdfRow) :
    vs.foldl (fun df v => df ++ [mdfRow v]) acc = acc ++ vs.map mdfRow := by
  induction vs generalizing acc with
  | nil => simp
  | cons v vs ih => simp [List.foldl_cons, ih]

/-- The nested listing loop flattens all pages' records, pages in response
order and records in page order. -/
theorem listing_foldl_eq_flatten (rs : List MdfPage) (acc : List MdfRow) :
    rs.foldl
        (fun df r => (r.value.getD []).foldl (fun df v => df ++ [mdfRow v]) df)
        acc
      = acc ++ ((pageRecords rs).map (List.map mdfRow)).flatten := by
  induction rs generalizing acc with
  | nil => simp [pageRecords]
  | cons r rs ih =>
    rw [List.foldl_cons, ih, foldl_append_rows]
    simp [pageRecords, List.map_map, List.append_assoc]

/-- `find?` over a list whose first satisfying element is `p` returns `p`. -/
theorem find_first_match {α : Type} (f : α → Bool) (pre post : List α) (p : α)
    (hp : f p = true) (hpre : ∀ q ∈ pre, f q = false) :
    (pre ++ p :: post).find? f = some p := by
  induction pre with
  | nil => simp [List.find?_cons, hp]
  | cons a l ih =>
    have ha : f a = false := hpre a (List.mem_cons_self a l)
    simp only [List.cons_append, List.find?_cons, ha]
    exact ih (fun q hq => hpre q (List.mem_cons_of_mem a hq))

/- ------------------------------------------------------------------ -/
/- Claim theorems                                                     -/
/- ------------------------------------------------------------------ -/

/-- Claim C4: for every valid workspace and every paginated response
sequence, `list_mounted_data_factories` returns exactly one row per item
record, in the order the records appear across pages (pages in response
order, records in page order), with no duplicates: the row list equals the
flattening of the pages' record lists mapped through the fixed-key row
builder, and its length is the total record count. -/
theorem C4_listing_rows (env : ListEnv) (workspace : Option String)
    (n i : String) (h : env.resolveWorkspace workspace = .ok (n, i)) :
    (list_mounted_data_factories env workspace).outcome
        = .ok (((pageRecords (env.pages i)).map (List.map mdfRow)).flatten)
    ∧ (((pageRecords (env.pages i)).map (List.map mdfRow)).flatten).length
        = ((pageRecords (env.pages i)).flatten).length := by
  constructor
  · simp only [list_mounted_data_factories, h]
    rw [listing_foldl_eq_flatten]
    simp
  · simp [List.length_flatten, List.map_map, Function.comp_def]

/-- Witness for C4: the claim's own example, two items "DF1"/"id1" and
"DF2"/"id2" across two pages, yields exactly those two rows in that order
with a null description. -/
theorem C4_listing_rows_witness :
    wListEnv.resolveWorkspace none = .ok ("W", "wid")
    ∧ (list_mounted_data_factories wListEnv none).outcome
        = .ok [{ name := some "DF1", id := some "id1", description := none },
               { name := some "DF2", id := some "id2", description := none }] := by
  refine ⟨rfl, ?_⟩
  have h := (C4_listing_rows wListEnv none "W" "wid" rfl).1
  rw [h]
  rfl

/-- Claim C6: every item record of every listing response contributes a row
whose fields are the fixed-key lookups `displayName`, `id`, `description` of
the record (Python `dict.get`, so a missing key yields a null field), and
the listing still returns rows rather than failing. -/
theorem C6_missing_keys (env : ListEnv) (workspace : Option String)
    (n i : String) (h : env.resolveWorkspace workspace = .ok (n, i))
    (r : MdfPage) (hr : r ∈ env.pages i)
    (v : PyDict) (hv : v ∈ r.value.getD []) :
    ∃ rows, (list_mounted_data_factories env workspace).outcome = .ok rows
      ∧ mdfRow v ∈ rows
      ∧ (mdfRow v).name = pyGet v "displayName"
      ∧ (mdfRow v).id = pyGet v "id"
      ∧ (mdfRow v).description = pyGet v "description" := by
  refine ⟨((pageRecords (env.pages i)).map (List.map mdfRow)).flatten, ?_, ?_, rfl, rfl, rfl⟩
  · simp only [list_mounted_data_factories, h]
    rw [listing_foldl_eq_flatten]
    simp
  · rw [List.mem_flatten]
    refine ⟨(r.value.getD []).map mdfRow, ?_, List.mem_map_of_mem mdfRow hv⟩
    rw [pageRecords, List.map_map]
    exact List.mem_map_of_mem (List.map mdfRow ∘ fun r => r.value.getD []) hr

/-- Witness for C6: a record carrying only the "id" key yields a row with a
null name and null description, in a listing that returns normally. -/
theorem C6_missing_keys_witness :
    wListEnvMissing.resolveWorkspace none = .ok ("W", "wid")
    ∧ (∃ rows,
        (list_mounted_data_factories wListEnvMissing none).outcome = .ok rows
        ∧ mdfRow [("id", "x")] ∈ rows
        ∧ (mdfRow [("id", "x")]).name = pyGet [("id", "x")] "displayName"
        ∧ (mdfRow [("id", "x")]).id = pyGet [("id", "x")] "id"
        ∧ (mdfRow [("id", "x")]).description = pyGet [("id", "x")] "description")
    ∧ (mdfRow [("id", "x")]).name = none
    ∧ (mdfRow [("id", "x")]).description = none := by
  refine ⟨rfl, ?_, rfl, rfl⟩
  exact C6_missing_keys wListEnvMissing none "W" "wid" rfl
    { value := some [[("id", "x")]] } (by simp [wListEnvMissing])
    [("id", "x")] (by simp)

/-- Claim C1: on a bundle containing a part at path
"mountedDataFactory-content.json", `get_mounted_data_factory_definition`
returns the JSON obtained by base64-decoding and JSON-parsing that (first
such) part's payload; on a bundle lacking such a part it fails with exactly
the `StopIteration` of the exhausted `next` generator — the NotFound-style
condition — and with no other error. -/
theorem C1_definition_fetch (env : GetDefEnv) (m : String)
    (workspace : Option String) (n i iid : String)
    (hw : env.resolveWorkspace workspace = .ok (n, i))
    (hi : env.resolveItemId m = .ok iid) :
    ((∃ p ∈ env.getDefinitionParts i iid, p.path = contentPath) →
      ∃ p, (env.getDefinitionParts i iid).find? (fun p => p.path == contentPath)
              = some p
        ∧ (get_mounted_data_factory_definition env m workspace).outcome
              = .ok (env.parseJson (env.decode p.payload)))
    ∧ ((∀ p ∈ env.getDefinitionParts i iid, p.path ≠ contentPath) →
      (get_mounted_data_factory_definition env m workspace).outcome
          = .error PyErr.stopIteration) := by
  cases hfind : (env.getDefinitionParts i iid).find? (fun p => p.path == contentPath) with
  | some p =>
    constructor
    · intro _
      exact ⟨p, rfl, by simp only [get_mounted_data_factory_definition, hw, hi, hfind]⟩
    · intro hnone
      have hmem := List.mem_of_find?_eq_some hfind
      have hpath := List.find?_some hfind
      exact absurd (by simpa using hpath) (hnone p hmem)
  | none =>
    constructor
    · intro ⟨p, hmem, hpath⟩
      have := List.find?_eq_none.mp hfind p hmem
      exact absurd (by simpa using hpath) (by simpa using this)
    · intro _
      simp only [get_mounted_data_factory_definition, hw, hi, hfind]

/-- Witness for C1: a bundle with a matching part yields the decoded, parsed
payload of the first match; a bundle with no matching part yields exactly a
`StopIteration` failure. -/
theorem C1_definition_fetch_witness :
    wGetDefEnv.resolveWorkspace none = .ok ("W", "wid")
    ∧ (∃ p ∈ wGetDefEnv.getDefinitionParts "wid" "mid", p.path = contentPath)
    ∧ (get_mounted_data_factory_definition wGetDefEnv "m" none).outcome
        = .ok (Json.str "payload1!")
    ∧ (get_mounted_data_factory_definition wGetDefEnvNone "m" none).outcome
        = .error PyErr.stopIteration := by
  refine ⟨rfl, ⟨{ path := contentPath, payload := "payload1" }, by decide, rfl⟩, ?_, ?_⟩
  · obtain ⟨p, hfind, hout⟩ :=
      (C1_definition_fetch wGetDefEnv "m" none "W" "wid" "mid" rfl rfl).1
        ⟨{ path := contentPath, payload := "payload1" }, by decide, rfl⟩
    have hp : p = { path := contentPath, payload := "payload1" } := by
      have h2 : (wGetDefEnv.getDefinitionParts "wid" "mid").find?
          (fun p => p.path == contentPath)
          = some { path := contentPath, payload := "payload1" } := by decide
      rw [hfind] at h2
      exact Option.some.inj h2
    rw [hp] at hout
    exact hout
  · exact (C1_definition_fetch wGetDefEnvNone "m" none "W" "wid" "mid" rfl rfl).2
      (by decide)

/-- Claim C10: when two or more parts sit at the content path,
`get_mounted_data_factory_definition` returns the decoded, parsed payload of
the FIRST such part in bundle order; the parts after it do not influence the
result. -/
theorem C10_first_matching_part (env : GetDefEnv) (m : String)
    (workspace : Option String) (n i iid : String)
    (hw : env.resolveWorkspace workspace = .ok (n, i))
    (hi : env.resolveItemId m = .ok iid)
    (pre post : List DefinitionPart) (p : DefinitionPart)
    (hparts : env.getDefinitionParts i iid = pre ++ p :: post)
    (hp : p.path = contentPath)
    (hpre : ∀ q ∈ pre, q.path ≠ contentPath) :
    (get_mounted_data_factory_definition env m workspace).outcome
      = .ok (env.parseJson (env.decode p.payload)) := by
  have hfind : (env.getDefinitionParts i iid).find? (fun p => p.path == contentPath)
      = some p := by
    rw [hparts]
    exact find_first_match _ pre post p (by simpa using hp)
      (fun q hq => by simpa using hpre q hq)
  simp only [get_mounted_data_factory_definition, hw, hi, hfind]

/-- Witness for C10: with parts "other.json", then "payload1" and "payload2"
both at the content path, the result is the decoded, parsed "payload1" — the
later matching part is ignored. -/
theorem C10_first_matching_part_witness :
    wGetDefEnv.getDefinitionParts "wid" "mid"
        = [{ path := "other.json", payload := "zzz" }]
            ++ { path := contentPath, payload := "payload1" }
              :: [{ path := contentPath, payload := "payload2" }]
    ∧ (get_mounted_data_factory_definition wGetDefEnv "m" none).outcome
        = .ok (Json.str "payload1!") := by
  refine ⟨by decide, ?_⟩
  have h := C10_first_matching_part wGetDefEnv "m" none "W" "wid" "mid" rfl rfl
    [{ path := "other.json", payload := "zzz" }]
    [{ path := contentPath, payload := "payload2" }]
    { path := contentPath, payload := "payload1" }
    (by decide) rfl (by decide)
  exact h

/-- Claim C5: `delete_mounted_data_factory` on a resolvable mounted data
factory issues exactly one deletion request; the success message is printed
exactly when that request succeeds, and a failing request surfaces its error
to the caller with no success message. -/
theorem C5_delete_dispatch (env : DeleteEnv) (m : String)
    (w : Option String) (n i : String)
    (h : env.resolveItem m w = .ok (n, i)) :
    (((delete_mounted_data_factory env m w).events.filter Event.isRequest).length = 1)
    ∧ ((delete_mounted_data_factory env m w).printedSuccess = true
        ↔ env.deleteItem i = .ok ())
    ∧ (∀ e, env.deleteItem i = .error e →
        (delete_mounted_data_factory env m w).raised = some e
        ∧ (delete_mounted_data_factory env m w).printedSuccess = false) := by
  cases hdel : env.deleteItem i with
  | ok u =>
    cases u
    refine ⟨?_, ?_, ?_⟩
    · simp [delete_mounted_data_factory, h, hdel, Event.isRequest, List.filter]
    · simp [delete_mounted_data_factory, h, hdel]
    · intro e he
      exact absurd he (by simp)
  | error e0 =>
    refine ⟨?_, ?_, ?_⟩
    · simp [delete_mounted_data_factory, h, hdel, Event.isRequest, List.filter]
    · simp [delete_mounted_data_factory, h, hdel]
    · intro e he
      have he0 : e0 = e := Except.error.inj he
      subst he0
      simp [delete_mounted_data_factory, h, hdel]

/-- Witness for C5: a succeeding deletion prints the success message; a
failing one surfaces the remote failure and prints no success message. -/
theorem C5_delete_dispatch_witness :
    wDeleteEnv.resolveItem "DF1" (some "W") = .ok ("DF1", "id1")
    ∧ (delete_mounted_data_factory wDeleteEnv "DF1" (some "W")).printedSuccess = true
    ∧ (((delete_mounted_data_factory wDeleteEnv "DF1" (some "W")).events.filter
          Event.isRequest).length = 1)
    ∧ (delete_mounted_data_factory wDeleteEnvFail "DF1" (some "W")).raised
        = some PyErr.remoteFailure
    ∧ (delete_mounted_data_factory wDeleteEnvFail "DF1" (some "W")).printedSuccess
        = false := by
  refine ⟨rfl, ?_, ?_, ?_, ?_⟩
  · exact ((C5_delete_dispatch wDeleteEnv "DF1" (some "W") "DF1" "id1" rfl).2.1).mpr rfl
  · exact (C5_delete_dispatch wDeleteEnv "DF1" (some "W") "DF1" "id1" rfl).1
  · exact ((C5_delete_dispatch wDeleteEnvFail "DF1" (some "W") "DF1" "id1" rfl).2.2
      PyErr.remoteFailure rfl).1
  · exact ((C5_delete_dispatch wDeleteEnvFail "DF1" (some "W") "DF1" "id1" rfl).2.2
      PyErr.remoteFailure rfl).2

/-- Claim C9: the `workspace` parameter of `delete_mounted_data_factory` has
no default value in the Python signature, so a call omitting it raises
`TypeError` before any resolution or remote request happens — despite the
docstring documenting `default=None` — while a call supplying the argument
runs the function body. -/
theorem C9_workspace_required (env : DeleteEnv) (m : String) :
    (delete_mounted_data_factory_call env (DeleteCallArgs.withoutWorkspace m)).events = []
    ∧ (delete_mounted_data_factory_call env (DeleteCallArgs.withoutWorkspace m)).raised
        = some PyErr.typeError
    ∧ (delete_mounted_data_factory_call env (DeleteCallArgs.withoutWorkspace m)).printedSuccess
        = false
    ∧ ∀ w, delete_mounted_data_factory_call env (DeleteCallArgs.withWorkspace m w)
        = delete_mounted_data_factory env m w := by
  exact ⟨rfl, rfl, rfl, fun w => rfl⟩

/-- Claim C3: on a semantic model with no partition in "DirectLake" mode,
`update_direct_lake_model_lakehouse_connection` performs zero mutations — it
never opens a read/write connection, executes no property assignment, and
leaves the persisted expressions unchanged — and it prints the precondition
mismatch, raising nothing. -/
theorem C3_remap_noop (env : RemapEnv) (dataset : String)
    (workspace lakehouse lakehouse_workspace : Option String)
    (hNoDL : "DirectLake" ∉ env.partitionModes dataset (remapWorkspacePair env workspace).1) :
    (update_direct_lake_model_lakehouse_connection env dataset workspace
        lakehouse lakehouse_workspace).opened = false
    ∧ (update_direct_lake_model_lakehouse_connection env dataset workspace
        lakehouse lakehouse_workspace).writeAttempts = 0
    ∧ (update_direct_lake_model_lakehouse_connection env dataset workspace
        lakehouse lakehouse_workspace).writes = []
    ∧ (update_direct_lake_model_lakehouse_connection env dataset workspace
        lakehouse lakehouse_workspace).finalExpressions
        = remapModelExprs env dataset workspace
    ∧ Msg.notDirectLake ∈ (update_direct_lake_model_lakehouse_connection env
        dataset workspace lakehouse lakehouse_workspace).prints
    ∧ (update_direct_lake_model_lakehouse_connection env dataset workspace
        lakehouse lakehouse_workspace).raised = none := by
  have hfilt : (env.partitionModes dataset (remapWorkspacePair env workspace).1).filter
      (fun m => m == "DirectLake") = [] := by
    rw [List.filter_eq_nil_iff]
    intro a ha
    simp only [beq_iff_eq]
    exact fun hEq => hNoDL (hEq ▸ ha)
  simp [update_direct_lake_model_lakehouse_connection, hfilt, remapModelExprs]

/-- Witness for C3: the Import-mode model environment yields no connection,
no writes, an unchanged expression collection, and the mismatch message. -/
theorem C3_remap_noop_witness :
    "DirectLake" ∉ wRemapEnvNoDL.partitionModes "ds"
        (remapWorkspacePair wRemapEnvNoDL (some "W")).1
    ∧ (update_direct_lake_model_lakehouse_connection wRemapEnvNoDL "ds"
        (some "W") (some "LH") none).opened = false
    ∧ (update_direct_lake_model_lakehouse_connection wRemapEnvNoDL "ds"
        (some "W") (some "LH") none).writes = []
    ∧ (update_direct_lake_model_lakehouse_connection wRemapEnvNoDL "ds"
        (some "W") (some "LH") none).finalExpressions
        = [("DatabaseQuery", "OLD")]
    ∧ Msg.notDirectLake ∈ (update_direct_lake_model_lakehouse_connection
        wRemapEnvNoDL "ds" (some "W") (some "LH") none).prints := by
  have h := C3_remap_noop wRemapEnvNoDL "ds" (some "W") (some "LH") none (by decide)
  exact ⟨by decide, h.1, h.2.2.1, by rw [h.2.2.2.1]; rfl, h.2.2.2.2.1⟩

/-- Claim C2: on a semantic model with at least one DirectLake partition the
remapper executes the "DatabaseQuery" property assignment exactly once; when
the named expression exists and the commit succeeds, the single successful
write is ("DatabaseQuery", shared expression), the commit happens, and the
persisted collection carries the new expression; when the assignment raises
(named expression missing) the persisted collection is unchanged and the
generic failure message is printed; when the commit fails the persisted
collection is unchanged and the failure propagates. -/
theorem C2_remap_write_commit (env : RemapEnv) (dataset : String)
    (workspace lakehouse lakehouse_workspace : Option String)
    (hDL : "DirectLake" ∈ env.partitionModes dataset (remapWorkspacePair env workspace).1) :
    (update_direct_lake_model_lakehouse_connection env dataset workspace
        lakehouse lakehouse_workspace).writeAttempts = 1
    ∧ (hasExpr (remapModelExprs env dataset workspace) "DatabaseQuery" = true →
       env.commitOk = true →
        (update_direct_lake_model_lakehouse_connection env dataset workspace
            lakehouse lakehouse_workspace).writes
            = [("DatabaseQuery", remapShared env workspace lakehouse lakehouse_workspace)]
        ∧ (update_direct_lake_model_lakehouse_connection env dataset workspace
            lakehouse lakehouse_workspace).committed = true
        ∧ (update_direct_lake_model_lakehouse_connection env dataset workspace
            lakehouse lakehouse_workspace).finalExpressions
            = setExpr (remapModelExprs env dataset workspace) "DatabaseQuery"
                (remapShared env workspace lakehouse lakehouse_workspace)
        ∧ (update_direct_lake_model_lakehouse_connection env dataset workspace
            lakehouse lakehouse_workspace).raised = none
        ∧ Msg.updated ∈ (update_direct_lake_model_lakehouse_connection env
            dataset workspace lakehouse lakehouse_workspace).prints)
    ∧ (hasExpr (remapModelExprs env dataset workspace) "DatabaseQuery" = false →
        (update_direct_lake_model_lakehouse_connection env dataset workspace
            lakehouse lakehouse_workspace).writes = []
        ∧ (update_direct_lake_model_lakehouse_connection env dataset workspace
            lakehouse lakehouse_workspace).finalExpressions
            = remapModelExprs env dataset workspace
        ∧ Msg.updateError ∈ (update_direct_lake_model_lakehouse_connection env
            dataset workspace lakehouse lakehouse_workspace).prints)
    ∧ (hasExpr (remapModelExprs env dataset workspace) "DatabaseQuery" = true →
       env.commitOk = false →
        (update_direct_lake_model_lakehouse_connection env dataset workspace
            lakehouse lakehouse_workspace).finalExpressions
            = remapModelExprs env dataset workspace
        ∧ (update_direct_lake_model_lakehouse_connection env dataset workspace
            lakehouse lakehouse_workspace).raised = some PyErr.remoteFailure) := by
  have hmem : "DirectLake" ∈ (env.partitionModes dataset
      (remapWorkspacePair env workspace).1).filter (fun m => m == "DirectLake") :=
    List.mem_filter.mpr ⟨hDL, by simp⟩
  have hfilt : ((env.partitionModes dataset
      (remapWorkspacePair env workspace).1).filter
        (fun m => m == "DirectLake")).isEmpty = false := by
    rcases hx : (env.partitionModes dataset
        (remapWorkspacePair env workspace).1).filter (fun m => m == "DirectLake") with _ | _
    · rw [hx] at hmem; simp at hmem
    · simp
  refine ⟨?_, ?_, ?_, ?_⟩
  · simp [update_direct_lake_model_lakehouse_connection, hfilt]
  · intro h1 h2
    simp only [remapModelExprs] at h1
    simp [update_direct_lake_model_lakehouse_connection, hfilt, h1, h2,
      remapModelExprs, remapShared, remapLakehouseWorkspace]
  · intro h1
    simp only [remapModelExprs] at h1
    simp [update_direct_lake_model_lakehouse_connection, hfilt, h1,
      remapModelExprs, remapShared, remapLakehouseWorkspace]
  · intro h1 h2
    simp only [remapModelExprs] at h1
    simp [update_direct_lake_model_lakehouse_connection, hfilt, h1, h2,
      remapModelExprs, remapShared, remapLakehouseWorkspace]

/-- Witness for C2: on the DirectLake model with a "DatabaseQuery"
expression and a succeeding commit, the call performs the single write
("DatabaseQuery", "NEWEXPR"), commits, and persists the new expression. -/
theorem C2_remap_write_commit_witness :
    "DirectLake" ∈ wRemapEnv.partitionModes "ds"
        (remapWorkspacePair wRemapEnv (some "W")).1
    ∧ (update_direct_lake_model_lakehouse_connection wRemapEnv "ds" (some "W")
        (some "LH") none).writeAttempts = 1
    ∧ (update_direct_lake_model_lakehouse_connection wRemapEnv "ds" (some "W")
        (some "LH") none).writes = [("DatabaseQuery", "NEWEXPR")]
    ∧ (update_direct_lake_model_lakehouse_connection wRemapEnv "ds" (some "W")
        (some "LH") none).committed = true
    ∧ (update_direct_lake_model_lakehouse_connection wRemapEnv "ds" (some "W")
        (some "LH") none).finalExpressions = [("DatabaseQuery", "NEWEXPR")] := by
  have h := C2_remap_write_commit wRemapEnv "ds" (some "W") (some "LH") none (by decide)
  have hmain := h.2.1 (by decide) rfl
  exact ⟨by decide, h.1, hmain.1, hmain.2.1, hmain.2.2.1⟩

/-- Claim C7: in `update_direct_lake_model_lakehouse_connection` the
read/write metadata connection is scoped: it is released exactly when it was
opened (on every exit path of the `with` block, including the path where the
property assignment raises and is caught), and no property assignment
executes outside an opened connection. -/
theorem C7_connection_scope (env : RemapEnv) (dataset : String)
    (workspace lakehouse lakehouse_workspace : Option String) :
    ((update_direct_lake_model_lakehouse_connection env dataset workspace
        lakehouse lakehouse_workspace).opened = true →
      (update_direct_lake_model_lakehouse_connection env dataset workspace
        lakehouse lakehouse_workspace).released = true)
    ∧ ((update_direct_lake_model_lakehouse_connection env dataset workspace
        lakehouse lakehouse_workspace).released = true →
      (update_direct_lake_model_lakehouse_connection env dataset workspace
        lakehouse lakehouse_workspace).opened = true)
    ∧ (0 < (update_direct_lake_model_lakehouse_connection env dataset workspace
        lakehouse lakehouse_workspace).writeAttempts →
      (update_direct_lake_model_lakehouse_connection env dataset workspace
        lakehouse lakehouse_workspace).opened = true) := by
  simp only [update_direct_lake_model_lakehouse_connection]
  split <;> simp

/-- Witness for C7: on the exception path — the model has no "DatabaseQuery"
expression, so the assignment inside the `try` raises — the connection was
opened and is still released. -/
theorem C7_connection_scope_witness :
    (update_direct_lake_model_lakehouse_connection wRemapEnvNoExpr "ds"
        (some "W") (some "LH") none).opened = true
    ∧ (update_direct_lake_model_lakehouse_connection wRemapEnvNoExpr "ds"
        (some "W") (some "LH") none).released = true := by
  refine ⟨by decide, ?_⟩
  exact (C7_connection_scope wRemapEnvNoExpr "ds" (some "W") (some "LH") none).1
    (by decide)

/-- Counterexample to C8 as stated: `delete_mounted_data_factory` — one of
the four operations the claim quantifies over — issues its remote deletion
request while resolving ZERO canonical workspace (name, id) pairs (the raw
workspace argument is passed through unresolved), so "exactly one canonical
(name, id) pair for the workspace is resolved before any remote request is
issued" fails at this concrete call. -/
theorem C8_counterexample :
    (((delete_mounted_data_factory wDeleteEnv "DF1" (some "W")).events.filter
        Event.isRequest).length = 1)
    ∧ ((delete_mounted_data_factory wDeleteEnv "DF1" (some "W")).events.filter
        Event.isWorkspacePair = []) := by
  exact ⟨by decide, by decide⟩

/-- Shape of the remapper's trace: it begins with the single canonical
workspace (name, id) resolution, and no later event resolves a workspace
pair. -/
theorem remap_events_shape (env : RemapEnv) (ds : String)
    (w lh lws : Option String) :
    ∃ rest, (update_direct_lake_model_lakehouse_connection env ds w lh lws).events
        = Event.resolveWorkspacePair (remapWorkspacePair env w).1
            (remapWorkspacePair env w).2 :: rest
      ∧ rest.filter Event.isWorkspacePair = [] := by
  simp only [update_direct_lake_model_lakehouse_connection]
  split <;> cases lh <;> exact ⟨_, rfl, by simp [Event.isWorkspacePair]⟩

/-- Claim C8 (amended): every listing, definition-fetch, or remap call
resolves exactly one canonical workspace (name, id) pair before any remote
request is issued, an omitted workspace being derived from ambient context
(shown explicitly for the remapper: ambient workspace id, then its name);
delete resolves its referenced item to a canonical (name, id) pair before
its single deletion request, but passes the workspace argument through
unresolved; referenced items elsewhere are resolved only to the identifier
field their request needs (an id alone for definition fetch). -/
theorem C8_resolution_discipline :
    (∀ (env : ListEnv) (w : Option String) (n i : String),
        env.resolveWorkspace w = .ok (n, i) →
        ∃ rest, (list_mounted_data_factories env w).events
            = Event.resolveWorkspacePair n i :: rest
          ∧ rest.filter Event.isWorkspacePair = [])
    ∧ (∀ (env : GetDefEnv) (m : String) (w : Option String) (n i iid : String),
        env.resolveWorkspace w = .ok (n, i) →
        env.resolveItemId m = .ok iid →
        (get_mounted_data_factory_definition env m w).events
            = [Event.resolveWorkspacePair n i, Event.resolveItemIdOnly iid,
               Event.request "POST getDefinition"])
    ∧ (∀ (env : RemapEnv) (ds : String) (w lh lws : Option String),
        (∃ rest, (update_direct_lake_model_lakehouse_connection env ds w lh lws).events
            = Event.resolveWorkspacePair (remapWorkspacePair env w).1
                (remapWorkspacePair env w).2 :: rest
          ∧ rest.filter Event.isWorkspacePair = [])
        ∧ (w = none → remapWorkspacePair env w
            = (env.resolveWorkspaceName env.getWorkspaceId, env.getWorkspaceId)))
    ∧ (∀ (env : DeleteEnv) (m : String) (w : Option String) (n i : String),
        env.resolveItem m w = .ok (n, i) →
        (delete_mounted_data_factory env m w).events
            = [Event.resolveItemPair n i, Event.request "DELETE item"]) := by
  refine ⟨?_, ?_, ?_, ?_⟩
  · intro env w n i h
    refine ⟨[Event.request "GET mountedDataFactories"], ?_, rfl⟩
    simp only [list_mounted_data_factories, h]
  · intro env m w n i iid hw hi
    cases hfind : (env.getDefinitionParts i iid).find? (fun p => p.path == contentPath) with
    | some p => simp only [get_mounted_data_factory_definition, hw, hi, hfind]
    | none => simp only [get_mounted_data_factory_definition, hw, hi, hfind]
  · intro env ds w lh lws
    refine ⟨remap_events_shape env ds w lh lws, ?_⟩
    intro h
    subst h
    rfl
  · intro env m w n i h
    cases hdel : env.deleteItem i with
    | ok u => simp only [delete_mounted_data_factory, h, hdel]
    | error e => simp only [delete_mounted_data_factory, h, hdel]

/-- Witness for C8 (amended): concrete instances of all four parts — the
listing's trace opens with its workspace pair, the fetch's trace is exactly
workspace pair, item id, request, the remapper's trace opens with its
workspace pair, and the delete's trace is exactly item pair then request. -/
theorem C8_resolution_discipline_witness :
    wListEnv.resolveWorkspace none = .ok ("W", "wid")
    ∧ (∃ rest, (list_mounted_data_factories wListEnv none).events
          = Event.resolveWorkspacePair "W" "wid" :: rest
        ∧ rest.filter Event.isWorkspacePair = [])
    ∧ (get_mounted_data_factory_definition wGetDefEnv "m" none).events
        = [Event.resolveWorkspacePair "W" "wid", Event.resolveItemIdOnly "mid",
           Event.request "POST getDefinition"]
    ∧ (∃ rest, (update_direct_lake_model_lakehouse_connection wRemapEnv "ds"
            (some "W") (some "LH") none).events
          = Event.resolveWorkspacePair (remapWorkspacePair wRemapEnv (some "W")).1
              (remapWorkspacePair wRemapEnv (some "W")).2 :: rest
        ∧ rest.filter Event.isWorkspacePair = [])
    ∧ (delete_mounted_data_factory wDeleteEnv "DF1" (some "W")).events
        = [Event.resolveItemPair "DF1" "id1", Event.request "DELETE item"] := by
  refine ⟨rfl, ?_, ?_, ?_, ?_⟩
  · exact C8_resolution_discipline.1 wListEnv none "W" "wid" rfl
  · exact C8_resolution_discipline.2.1 wGetDefEnv "m" none "W" "wid" "mid" rfl rfl
  · exact (C8_resolution_discipline.2.2.1 wRemapEnv "ds" (some "W") (some "LH") none).1
  · exact C8_resolution_discipline.2.2.2 wDeleteEnv "DF1" (some "W") "DF1" "id1" rfl
